import Mathlib

/-!
Shallow embedding of the go-ticketing-analysis repository.

Server side (ticketing-be/main.go): the seats table is a list of rows
`(seat_id, status, user_id)`; `reserveHandler`, `availableSeatsHandler`
and `initSeats` are translated as pure state transformers.  The SQL layer
is modelled by the operations the handlers actually issue: point lookup
by seat_id (`SELECT ... WHERE seat_id = ?`), row update
(`UPDATE ... WHERE seat_id = ?`), conditional insert (`INSERT IGNORE`),
and the filtered, ordered, limited scan of `availableSeatsHandler`.
Infrastructure failures (Begin/Select/Update/Commit errors) are injected
through an `Infra` record of booleans; the rollback discipline of the
transactional store means a failed transaction leaves the table unchanged.

Harness side (the load-test program in the unnamed source file):
`tryReserve` outcomes are `Result` records; a client run is driven by a
script of fetch rounds, each carrying the shuffled seat list the client
saw and the oracle of reserve outcomes for the at-most-3 attempts of that
round; the aggregation loop of `main` is a fold over the joined runs.
-/

namespace Ticketing

/-- One row of the `seats` table: `seat_id INT PRIMARY KEY`, a `status`
column defaulting to the string "available", and a nullable `user_id`. -/
structure SeatRow where
  seat_id : Int
  status : String
  user_id : Option Int
deriving Repr, DecidableEq

/-- The `seats` table, as a list of rows (insertion order). -/
abbrev Seats := List SeatRow

/-- The JSON request body of `POST /reserve`. -/
structure TicketRequest where
  UserID : Int
  SeatID : Int
deriving Repr, DecidableEq

/-- Character-list version of the Go `strings.HasPrefix` test:
`charsPref pat s` is true when `pat` is an initial segment of `s`. -/
def charsPref : List Char → List Char → Bool
  | [], _ => true
  | _ :: _, [] => false
  | c :: cs, d :: ds => c == d && charsPref cs ds

/-- Go function strings.HasPrefix as used on the Content-Type header. -/
def strHasPref (s pat : String) : Bool := charsPref pat.data s.data

/-- Point lookup `SELECT ... FROM seats WHERE seat_id = ?`: the row with
the given id, if any. -/
def findSeat (σ : Seats) (sid : Int) : Option SeatRow :=
  σ.find? (fun row => row.seat_id == sid)

/-- Row update `UPDATE seats SET status = reserved, user_id = ? WHERE
seat_id = ?` (status literally becomes the string "reserved"). -/
def updateReserve (σ : Seats) (sid uid : Int) : Seats :=
  σ.map (fun row =>
    if row.seat_id == sid then { row with status := "reserved", user_id := some uid } else row)

/-- Conditional insert `INSERT IGNORE INTO seats (seat_id) VALUES (?)`:
no-op when a row with this primary key exists, otherwise a fresh row with
the column defaults (status "available", user_id NULL). -/
def insertIgnore (σ : Seats) (i : Int) : Seats :=
  if σ.any (fun row => row.seat_id == i) then σ else σ ++ [⟨i, "available", none⟩]

/-- Function initSeats(total): one INSERT IGNORE per id, i running from 1
up to total (the CREATE TABLE IF NOT EXISTS is the identity on an
existing table). -/
def initSeats (total : Nat) (σ : Seats) : Seats :=
  (List.range total).foldl (fun s (k : Nat) => insertIgnore s ((k : Int) + 1)) σ

/-- Injected infrastructure failures: `db.Begin`, the `SELECT ... FOR UPDATE`,
the `UPDATE`, and `tx.Commit` can each return a driver error. -/
structure Infra where
  beginErr : Bool
  selectErr : Bool
  updateErr : Bool
  commitErr : Bool
deriving Repr, DecidableEq

/-- No infrastructure failure. -/
def noInfra : Infra := ⟨false, false, false, false⟩

/-- What one call of `reserveHandler` produces: the HTTP status code, the
response message, the seats table after the call (the deferred
`tx.Rollback()` restores it on any mid-transaction failure), and whether
`db.Begin()` was invoked at all. -/
structure HandlerResult where
  code : Nat
  msg : String
  seats : Seats
  beganTx : Bool
deriving Repr, DecidableEq

/-- Handler reserveHandler of ticketing-be/main.go.  `contentType` is the
Content-Type header; `reqBody` is the outcome of decoding the body
(`none` for malformed JSON). -/
def reserveHandler (infra : Infra) (contentType : String) (reqBody : Option TicketRequest)
    (σ : Seats) : HandlerResult :=
  if ¬ strHasPref contentType "application/json" then
    ⟨415, "Content-Type must be application/json", σ, false⟩
  else
    match reqBody with
    | none => ⟨400, "Invalid JSON", σ, false⟩
    | some req =>
      if infra.beginErr then ⟨500, "internal server error", σ, true⟩
      else if infra.selectErr then ⟨500, "internal server error", σ, true⟩
      else
        match findSeat σ req.SeatID with
        | none => ⟨404, "Seat not found", σ, true⟩
        | some row =>
          if row.status ≠ "available" then ⟨409, "Seat already reserved", σ, true⟩
          else if infra.updateErr then ⟨500, "internal server error", σ, true⟩
          else if infra.commitErr then ⟨500, "internal server error", σ, true⟩
          else ⟨200, "Reservation successful", updateReserve σ req.SeatID req.UserID, true⟩

/-- The ids selected by
`SELECT seat_id FROM seats WHERE status = 'available'` (before ORDER BY / LIMIT). -/
def availableIds (σ : Seats) : List Int :=
  (σ.filter (fun row => row.status == "available")).map (fun row => row.seat_id)

/-- Handler availableSeatsHandler: the query
`SELECT seat_id FROM seats WHERE status = available ORDER BY seat_id LIMIT 100`. -/
def availableSeatsHandler (σ : Seats) : List Int :=
  ((availableIds σ).insertionSort (· ≤ ·)).take 100

/-- The record of one `tryReserve` round trip: the HTTP status code of the
response (`0` when the POST returned an error), the elapsed duration in
time units (`0` only in the synthetic record), and the Go error
(`none` for nil). -/
structure Result where
  StatusCode : Int
  Duration : Nat
  Err : Option String
deriving Repr, DecidableEq

/-- The filter `result.Err != nil || result.Duration == 0` that drops an
attempt from the recorded results of a client. -/
def droppedAttempt (r : Result) : Bool := r.Err != none || r.Duration == 0

/-- The inner attempt loop of `simulateClient` over the outcomes of the
attempts it issues, in order: a dropped attempt is skipped (`continue`), a
recorded `StatusCode == 200` ends the loop (`break`), any other recorded
attempt is followed by the next candidate. -/
def recordAttempts : List Result → List Result
  | [] => []
  | r :: rest =>
    if droppedAttempt r then recordAttempts rest
    else if r.StatusCode == 200 then [r]
    else r :: recordAttempts rest

/-- One iteration of the outer loop of `simulateClient`:
either `fetchAvailableSeats` failed (`continue`), or it returned the seat
list as the client saw it after the shuffle, together with the oracle of
`tryReserve` outcomes for the attempts of this round. -/
inductive Round where
  | fetchFail
  | fetch (seats : List Int) (outcomes : List Result)
deriving Repr, DecidableEq

/-- The outer loop of `simulateClient`, driven by a script of rounds:
a failed fetch is retried, an empty seat list breaks the loop, and a
non-empty one runs the attempt loop on at most its first 3 candidates. -/
def clientLoop : List Round → List Result
  | [] => []
  | Round.fetchFail :: rest => clientLoop rest
  | Round.fetch [] _ :: _ => []
  | Round.fetch (s :: ss) outs :: rest =>
    recordAttempts (outs.take (min (s :: ss).length 3)) ++ clientLoop rest

/-- Function simulateClient: run the loop; if nothing was recorded, send
the one synthetic failure record; send the recorded results otherwise. -/
def simulateClient (userID : Int) (script : List Round) : List Result :=
  let currentResults := clientLoop script
  if currentResults.length == 0 then
    [⟨0, 0, some ("user " ++ toString userID ++ ": no request succeeded")⟩]
  else currentResults

/-- Observer: every attempt a round actually issues (recorded or dropped),
consuming the oracle exactly as the attempt loop does. -/
def issuedRound : List Result → List Result
  | [] => []
  | r :: rest =>
    if droppedAttempt r then r :: issuedRound rest
    else if r.StatusCode == 200 then [r]
    else r :: issuedRound rest

/-- Observer: every attempt a whole client run issues. -/
def issuedAttempts : List Round → List Result
  | [] => []
  | Round.fetchFail :: rest => issuedAttempts rest
  | Round.fetch [] _ :: _ => []
  | Round.fetch (s :: ss) outs :: rest =>
    issuedRound (outs.take (min (s :: ss).length 3)) ++ issuedAttempts rest

/-- The accumulator of the aggregation loop in the harness `main`. -/
structure Agg where
  successCount : Nat
  successTotalRTT : Nat
  failCount : Nat
  failTotalRTT : Nat
  requestFailCount : Nat
deriving Repr, DecidableEq

/-- One step of the aggregation loop: `Duration == 0` is a request failure;
otherwise `StatusCode == 200` is a reservation success and anything else a
reservation rejection. -/
def aggStep (a : Agg) (r : Result) : Agg :=
  if r.Duration == 0 then
    { a with requestFailCount := a.requestFailCount + 1 }
  else if r.StatusCode == 200 then
    { a with successCount := a.successCount + 1,
             successTotalRTT := a.successTotalRTT + r.Duration }
  else
    { a with failCount := a.failCount + 1,
             failTotalRTT := a.failTotalRTT + r.Duration }

/-- The aggregation loop of `main` over the collected client runs. -/
def aggregate (runs : List (List Result)) : Agg :=
  runs.flatten.foldl aggStep ⟨0, 0, 0, 0, 0⟩

/-- One record emitted by `logJSON` in the logging server variant. -/
structure LogEntry where
  level : String
  action : String
  userID : Int
  seatID : Int
  status : String
  error : Option String
deriving Repr, DecidableEq

/-- The `reserveHandler` of the logging server variant: same checks in the
same order, plus one `logJSON` record per outcome. -/
def reserveHandlerLogged (infra : Infra) (contentType : String)
    (reqBody : Option TicketRequest) (σ : Seats) : HandlerResult × List LogEntry :=
  if ¬ strHasPref contentType "application/json" then
    (⟨415, "Content-Type must be application/json", σ, false⟩,
      [⟨"WARN", "reserve", 0, 0, "bad_content_type", none⟩])
  else
    match reqBody with
    | none =>
      (⟨400, "Invalid JSON", σ, false⟩,
        [⟨"ERROR", "reserve", 0, 0, "invalid_json", some "json decode error"⟩])
    | some req =>
      if infra.beginErr then
        (⟨500, "internal server error", σ, true⟩,
          [⟨"ERROR", "reserve", req.UserID, req.SeatID, "tx_begin_fail", some "db error"⟩])
      else if infra.selectErr then
        (⟨500, "internal server error", σ, true⟩,
          [⟨"ERROR", "reserve", req.UserID, req.SeatID, "select_fail", some "db error"⟩])
      else
        match findSeat σ req.SeatID with
        | none =>
          (⟨404, "Seat not found", σ, true⟩,
            [⟨"WARN", "reserve", req.UserID, req.SeatID, "seat_not_found", none⟩])
        | some row =>
          if row.status ≠ "available" then
            (⟨409, "Seat already reserved", σ, true⟩,
              [⟨"INFO", "reserve", req.UserID, req.SeatID, "seat_conflict", none⟩])
          else if infra.updateErr then
            (⟨500, "internal server error", σ, true⟩,
              [⟨"ERROR", "reserve", req.UserID, req.SeatID, "update_fail", some "db error"⟩])
          else if infra.commitErr then
            (⟨500, "internal server error", σ, true⟩,
              [⟨"ERROR", "reserve", req.UserID, req.SeatID, "commit_fail", some "db error"⟩])
          else
            (⟨200, "Reservation successful", updateReserve σ req.SeatID req.UserID, true⟩,
              [⟨"INFO", "reserve", req.UserID, req.SeatID, "success", none⟩])

/-- A serialized execution of a list of reserve calls, in the order the
per-row exclusive lock (SELECT ... FOR UPDATE) admits them: each call
starts from the table the previous one left, with well-formed JSON
requests and no infrastructure failure.  Returns the list of HTTP status
codes, in order, and the final table. -/
def runReserves (σ : Seats) : List TicketRequest → List Nat × Seats
  | [] => ([], σ)
  | r :: rest =>
    let h := reserveHandler noInfra "application/json" (some r) σ
    let p := runReserves h.seats rest
    (h.code :: p.1, p.2)

/-- The operations of the server that touch or read the seats table:
one reserve call (with arbitrary header, body and injected failures), one
available-seats listing, one re-run of initSeats. -/
inductive Op where
  | reserveOp (infra : Infra) (ct : String) (body : Option TicketRequest)
  | listAvailableOp
  | initOp (total : Nat)

/-- The seats table after one operation (listing does not mutate). -/
def applyOp (σ : Seats) : Op → Seats
  | Op.reserveOp infra ct body => (reserveHandler infra ct body σ).seats
  | Op.listAvailableOp => σ
  | Op.initOp total => initSeats total σ

/-- Per-row invariant: user_id is set exactly on the rows whose status is
the string "reserved". -/
def ownerIffReserved (σ : Seats) : Prop :=
  ∀ row ∈ σ, (row.user_id ≠ none ↔ row.status = "reserved")

/-- The multiset of primary keys of the table, in row order. -/
def seatIds (σ : Seats) : List Int := σ.map (fun row => row.seat_id)

/-- A sequence of reserve calls (arbitrary headers, bodies and injected
failures) folded over the table. -/
def applyReserves (σ : Seats) (calls : List (Infra × String × Option TicketRequest)) : Seats :=
  calls.foldl (fun s c => (reserveHandler c.1 c.2.1 c.2.2 s).seats) σ

/-- Aggregator class RequestFailure: the branch `r.Duration == 0`. -/
def classRequestFailure (r : Result) : Bool := r.Duration == 0

/-- Aggregator class ReservationSuccess: a response was received
(`Duration != 0`) with status 200. -/
def classSuccess (r : Result) : Bool := !(r.Duration == 0) && (r.StatusCode == 200)

/-- Aggregator class ReservationRejected: a response was received with a
non-200 status. -/
def classRejected (r : Result) : Bool := !(r.Duration == 0) && !(r.StatusCode == 200)

/-- Sum of the durations of the results of a class. -/
def classTotalRTT (p : Result → Bool) (l : List Result) : Nat :=
  ((l.filter p).map (fun r => r.Duration)).sum

/-- Client script for the transport-failure counterexample: one fetch
round returning seats [1, 2], whose first attempt is a transport failure
(error, no usable response) and whose second attempt succeeds with
status 200 after 7 time units; then the pool is exhausted. -/
def cex5 : List Round :=
  [Round.fetch [1, 2] [⟨0, 3, some "connection refused"⟩, ⟨200, 7, none⟩],
   Round.fetch [] []]

/-- Marking a row reserved for user `u`. -/
def markReserved (u : Int) (row : SeatRow) : SeatRow :=
  { row with status := "reserved", user_id := some u }

lemma updateReserve_cons (head : SeatRow) (tail : Seats) (s u : Int) :
    updateReserve (head :: tail) s u =
      (if head.seat_id == s then markReserved u head else head) :: updateReserve tail s u := by
  simp [updateReserve, markReserved]

lemma findSeat_updateReserve_self (σ : Seats) (s u : Int) :
    findSeat (updateReserve σ s u) s = (findSeat σ s).map (markReserved u) := by
  induction σ with
  | nil => rfl
  | cons head tail ih =>
    rw [updateReserve_cons]
    by_cases h : head.seat_id = s
    · simp [findSeat, List.find?_cons, h, markReserved]
    · simp only [findSeat, List.find?_cons] at ih ⊢
      have hb : (head.seat_id == s) = false := by simp [h]
      simp [hb, markReserved, h, ih]

lemma findSeat_updateReserve_ne (σ : Seats) (s u t : Int) (hne : t ≠ s) :
    findSeat (updateReserve σ s u) t = findSeat σ t := by
  induction σ with
  | nil => rfl
  | cons head tail ih =>
    rw [updateReserve_cons]
    by_cases h : head.seat_id == s
    · have hid : head.seat_id = s := by simpa using h
      have ht : (s == t) = false := by
        simp only [beq_eq_false_iff_ne]
        exact fun hc => hne hc.symm
      simp only [findSeat] at ih ⊢
      simp [List.find?_cons, markReserved, hid, ht, ih]
    · simp only [findSeat, List.find?_cons] at ih ⊢
      simp [h] at *
      by_cases h2 : head.seat_id == t <;> simp [h2, ih]

lemma findSeat_append_left (σ τ : Seats) (s : Int) (row : SeatRow)
    (h : findSeat σ s = some row) : findSeat (σ ++ τ) s = some row := by
  simp [findSeat, List.find?_append] at h ⊢
  simp [h]

lemma findSeat_insertIgnore (σ : Seats) (i s : Int) (row : SeatRow)
    (h : findSeat σ s = some row) : findSeat (insertIgnore σ i) s = some row := by
  unfold insertIgnore
  split
  · exact h
  · exact findSeat_append_left σ _ s row h

lemma foldl_insertIgnore_preserves (P : Seats → Prop)
    (hstep : ∀ σ i, P σ → P (insertIgnore σ i)) :
    ∀ (l : List Nat) (σ : Seats),
      P σ → P (l.foldl (fun s (k : Nat) => insertIgnore s ((k : Int) + 1)) σ)
  | [], _, h => h
  | _ :: l, σ, h => foldl_insertIgnore_preserves P hstep l _ (hstep σ _ h)

lemma findSeat_initSeats (total : Nat) (σ : Seats) (s : Int) (row : SeatRow)
    (h : findSeat σ s = some row) : findSeat (initSeats total σ) s = some row := by
  unfold initSeats
  exact foldl_insertIgnore_preserves (fun τ => findSeat τ s = some row)
    (fun τ i hp => findSeat_insertIgnore τ i s row hp) (List.range total) σ h

lemma ct_json_ok : strHasPref "application/json" "application/json" = true := by decide

lemma reserveHandler_granted (σ : Seats) (r : TicketRequest) (row : SeatRow)
    (hfind : findSeat σ r.SeatID = some row) (havail : row.status = "available") :
    reserveHandler noInfra "application/json" (some r) σ =
      ⟨200, "Reservation successful", updateReserve σ r.SeatID r.UserID, true⟩ := by
  unfold reserveHandler
  simp [noInfra, hfind, havail, ct_json_ok]

lemma reserveHandler_conflict (σ : Seats) (r : TicketRequest) (row : SeatRow)
    (hfind : findSeat σ r.SeatID = some row) (hna : row.status ≠ "available") :
    reserveHandler noInfra "application/json" (some r) σ =
      ⟨409, "Seat already reserved", σ, true⟩ := by
  unfold reserveHandler
  simp [noInfra, hfind, hna, ct_json_ok]

lemma runReserves_all_conflict (σ : Seats) (sid : Int) (row : SeatRow)
    (reqs : List TicketRequest)
    (hfind : findSeat σ sid = some row) (hna : row.status ≠ "available")
    (htarget : ∀ r ∈ reqs, r.SeatID = sid) :
    runReserves σ reqs = (reqs.map (fun _ => 409), σ) := by
  induction reqs with
  | nil => rfl
  | cons r rest ih =>
    have hr : r.SeatID = sid := htarget r (by simp)
    have h409 := reserveHandler_conflict σ r row (hr ▸ hfind) hna
    simp only [runReserves, h409, List.map_cons]
    rw [ih (fun x hx => htarget x (List.mem_cons_of_mem r hx))]

/-- C1.  Race property over the serialization imposed by the per-row
exclusive lock: for any list of at least two reserve requests on the same
seat (currently available) with pairwise-distinct user ids, executed in
the order the lock admits them, exactly one call returns HTTP 200 with
the message Reservation successful, every other call returns HTTP 409,
and the final table holds the seat as reserved by the winner (the first
request in the serialization order). -/
theorem reserve_race_single_winner (σ : Seats) (sid : Int) (row : SeatRow)
    (reqs : List TicketRequest)
    (hfind : findSeat σ sid = some row) (havail : row.status = "available")
    (htarget : ∀ r ∈ reqs, r.SeatID = sid)
    (hdistinct : reqs.Pairwise (fun a b => a.UserID ≠ b.UserID))
    (hlen : 2 ≤ reqs.length) :
    ((runReserves σ reqs).1.count 200 = 1) ∧
    ((runReserves σ reqs).1.count 409 = reqs.length - 1) ∧
    (∀ c ∈ (runReserves σ reqs).1, c = 200 ∨ c = 409) ∧
    ∃ winner, reqs.head? = some winner ∧
      (runReserves σ reqs).1.head? = some 200 ∧
      (reserveHandler noInfra "application/json" (some winner) σ).code = 200 ∧
      findSeat (runReserves σ reqs).2 sid = some (markReserved winner.UserID row) := by
  match reqs, hlen with
  | r :: rest, _ =>
    have hr : r.SeatID = sid := htarget r (by simp)
    have h200 := reserveHandler_granted σ r row (hr ▸ hfind) havail
    have hfind1 : findSeat (updateReserve σ r.SeatID r.UserID) sid =
        some (markReserved r.UserID row) := by
      rw [hr, findSeat_updateReserve_self, hfind]
      rfl
    have hrest := runReserves_all_conflict (updateReserve σ r.SeatID r.UserID) sid
      (markReserved r.UserID row) rest hfind1 (by simp [markReserved])
      (fun x hx => htarget x (List.mem_cons_of_mem r hx))
    have hrun : runReserves σ (r :: rest) =
        (200 :: rest.map (fun _ => 409), updateReserve σ r.SeatID r.UserID) := by
      simp only [runReserves, h200, hrest]
    refine ⟨?_, ?_, ?_, r, rfl, ?_, ?_, ?_⟩
    · simp [hrun, List.count_cons, List.count_eq_zero]
    · have hcnt : ∀ l : List TicketRequest, (l.map (fun _ => (409 : Nat))).count 409 = l.length := by
        intro l
        induction l with
        | nil => rfl
        | cons y ys ihy => simp [List.count_cons, ihy]
      simp [hrun, List.count_cons, hcnt]
    · intro c hc
      rw [hrun] at hc
      rcases List.mem_cons.mp hc with h | h
      · exact Or.inl h
      · right
        rcases List.mem_map.mp h with ⟨_, _, hx⟩
        exact hx.symm
    · simp [hrun]
    · rw [h200]
    · rw [hrun]
      exact hfind1

/-- Witness for C1: two racing requests for seat 1 of a fresh 2-seat pool. -/
theorem reserve_race_single_winner_witness :
    ((runReserves (initSeats 2 []) [⟨10, 1⟩, ⟨11, 1⟩]).1.count 200 = 1) ∧
    ((runReserves (initSeats 2 []) [⟨10, 1⟩, ⟨11, 1⟩]).1.count 409 =
      ([⟨10, 1⟩, ⟨11, 1⟩] : List TicketRequest).length - 1) ∧
    (∀ c ∈ (runReserves (initSeats 2 []) [⟨10, 1⟩, ⟨11, 1⟩]).1, c = 200 ∨ c = 409) ∧
    ∃ winner : TicketRequest, ([⟨10, 1⟩, ⟨11, 1⟩] : List TicketRequest).head? = some winner ∧
      (runReserves (initSeats 2 []) [⟨10, 1⟩, ⟨11, 1⟩]).1.head? = some 200 ∧
      (reserveHandler noInfra "application/json" (some winner) (initSeats 2 [])).code = 200 ∧
      findSeat (runReserves (initSeats 2 []) [⟨10, 1⟩, ⟨11, 1⟩]).2 1 =
        some (markReserved winner.UserID ⟨1, "available", none⟩) :=
  reserve_race_single_winner (initSeats 2 []) 1 ⟨1, "available", none⟩
    [⟨10, 1⟩, ⟨11, 1⟩] (by decide) rfl (by decide) (by decide) (by decide)

lemma reserveHandler_seats_cases (infra : Infra) (ct : String) (body : Option TicketRequest)
    (σ : Seats) :
    (reserveHandler infra ct body σ).seats = σ ∨
      ∃ req row, body = some req ∧ findSeat σ req.SeatID = some row ∧
        row.status = "available" ∧
        (reserveHandler infra ct body σ).seats = updateReserve σ req.SeatID req.UserID := by
  rcases body with _ | req
  · by_cases hct : strHasPref ct "application/json" = true <;> simp [reserveHandler, hct]
  · by_cases hct : strHasPref ct "application/json" = true
    · by_cases hb : infra.beginErr = true
      · simp [reserveHandler, hct, hb]
      · by_cases hsel : infra.selectErr = true
        · simp [reserveHandler, hct, hb, hsel]
        · cases hfind : findSeat σ req.SeatID with
          | none => simp [reserveHandler, hct, hb, hsel, hfind]
          | some row =>
            by_cases hav : row.status = "available"
            · by_cases hupd : infra.updateErr = true
              · simp [reserveHandler, hct, hb, hsel, hfind, hav, hupd]
              · by_cases hcom : infra.commitErr = true
                · simp [reserveHandler, hct, hb, hsel, hfind, hav, hupd, hcom]
                · exact Or.inr ⟨req, row, rfl, hfind, hav,
                    by simp [reserveHandler, hct, hb, hsel, hfind, hav, hupd, hcom]⟩
            · simp [reserveHandler, hct, hb, hsel, hfind, hav]
    · simp [reserveHandler, hct]

lemma findSeat_reserveHandler_reserved (infra : Infra) (ct : String)
    (body : Option TicketRequest) (σ : Seats) (sid : Int) (row : SeatRow)
    (hfind : findSeat σ sid = some row) (hres : row.status = "reserved") :
    findSeat (reserveHandler infra ct body σ).seats sid = some row := by
  rcases reserveHandler_seats_cases infra ct body σ with hs | ⟨req, row₂, _, hf2, hav, hs⟩
  · rw [hs]; exact hfind
  · rw [hs]
    by_cases hsid : sid = req.SeatID
    · subst hsid
      rw [hfind] at hf2
      cases hf2
      rw [hres] at hav
      exact absurd hav (by decide)
    · rw [findSeat_updateReserve_ne σ req.SeatID req.UserID sid hsid]
      exact hfind

lemma ownerIffReserved_updateReserve (σ : Seats) (s u : Int)
    (h : ownerIffReserved σ) : ownerIffReserved (updateReserve σ s u) := by
  intro row' hmem
  rcases List.mem_map.mp hmem with ⟨row, hrow, rfl⟩
  by_cases hc : row.seat_id == s
  · simp [hc]
  · simpa [hc] using h row hrow

lemma ownerIffReserved_insertIgnore (σ : Seats) (i : Int)
    (h : ownerIffReserved σ) : ownerIffReserved (insertIgnore σ i) := by
  unfold insertIgnore
  split
  · exact h
  · intro row hmem
    rcases List.mem_append.mp hmem with hm | hm
    · exact h row hm
    · simp at hm
      simp [hm]

/-- C2.  Once a seat row is reserved, no operation of the server (any
reserve call with any header, body and injected failures, the listing
handler, or a re-run of initSeats) changes what a lookup of that seat
returns: status stays reserved, the owner stays the same.  Moreover every
operation preserves the invariant that user_id is set exactly on reserved
rows. -/
theorem reserved_seat_permanent :
    (∀ (σ : Seats) (op : Op) (sid : Int) (row : SeatRow),
      findSeat σ sid = some row → row.status = "reserved" →
      findSeat (applyOp σ op) sid = some row) ∧
    (∀ (σ : Seats) (op : Op), ownerIffReserved σ → ownerIffReserved (applyOp σ op)) := by
  constructor
  · intro σ op sid row hfind hres
    cases op with
    | reserveOp infra ct body =>
      exact findSeat_reserveHandler_reserved infra ct body σ sid row hfind hres
    | listAvailableOp => exact hfind
    | initOp total => exact findSeat_initSeats total σ sid row hfind
  · intro σ op h
    cases op with
    | reserveOp infra ct body =>
      show ownerIffReserved (reserveHandler infra ct body σ).seats
      rcases reserveHandler_seats_cases infra ct body σ with hs | ⟨req, row₂, _, _, _, hs⟩
      · rw [hs]; exact h
      · rw [hs]; exact ownerIffReserved_updateReserve σ req.SeatID req.UserID h
    | listAvailableOp => exact h
    | initOp total =>
      exact foldl_insertIgnore_preserves ownerIffReserved
        (fun τ i hp => ownerIffReserved_insertIgnore τ i hp) (List.range total) σ h

/-- Witness for C2: seat 1 reserved by user 7 survives a later reserve
call for it, and the owner-iff-reserved invariant still holds. -/
theorem reserved_seat_permanent_witness :
    findSeat
      (applyOp (reserveHandler noInfra "application/json" (some ⟨7, 1⟩) (initSeats 2 [])).seats
        (Op.reserveOp noInfra "application/json" (some ⟨9, 1⟩))) 1 =
      some ⟨1, "reserved", some 7⟩ ∧
    ownerIffReserved
      (applyOp (reserveHandler noInfra "application/json" (some ⟨7, 1⟩) (initSeats 2 [])).seats
        (Op.reserveOp noInfra "application/json" (some ⟨9, 1⟩))) :=
  ⟨reserved_seat_permanent.1
      (reserveHandler noInfra "application/json" (some ⟨7, 1⟩) (initSeats 2 [])).seats
      (Op.reserveOp noInfra "application/json" (some ⟨9, 1⟩)) 1 ⟨1, "reserved", some 7⟩
      (by decide) rfl,
   reserved_seat_permanent.2
      (reserveHandler noInfra "application/json" (some ⟨7, 1⟩) (initSeats 2 [])).seats
      (Op.reserveOp noInfra "application/json" (some ⟨9, 1⟩))
      (by unfold ownerIffReserved; decide)⟩

lemma reserveHandler_code_mem (infra : Infra) (ct : String) (body : Option TicketRequest)
    (σ : Seats) :
    (reserveHandler infra ct body σ).code = 200 ∨ (reserveHandler infra ct body σ).code = 400 ∨
    (reserveHandler infra ct body σ).code = 404 ∨ (reserveHandler infra ct body σ).code = 409 ∨
    (reserveHandler infra ct body σ).code = 415 ∨ (reserveHandler infra ct body σ).code = 500 := by
  rcases body with _ | req
  · by_cases hct : strHasPref ct "application/json" = true <;> simp [reserveHandler, hct]
  · by_cases hct : strHasPref ct "application/json" = true
    · by_cases hb : infra.beginErr = true
      · simp [reserveHandler, hct, hb]
      · by_cases hsel : infra.selectErr = true
        · simp [reserveHandler, hct, hb, hsel]
        · cases hfind : findSeat σ req.SeatID with
          | none => simp [reserveHandler, hct, hb, hsel, hfind]
          | some row =>
            by_cases hav : row.status = "available"
            · by_cases hupd : infra.updateErr = true
              · simp [reserveHandler, hct, hb, hsel, hfind, hav, hupd]
              · by_cases hcom : infra.commitErr = true <;>
                  simp [reserveHandler, hct, hb, hsel, hfind, hav, hupd, hcom]
            · simp [reserveHandler, hct, hb, hsel, hfind, hav]
    · simp [reserveHandler, hct]

/-- C3.  The response taxonomy of reserveHandler: the status code is
always one of 200, 400, 404, 409, 415, 500; a wrong Content-Type gets
415 before anything else; well-typed but malformed JSON gets 400; a
Begin or Select failure gets 500 with the table untouched; an unknown
seat gets 404; a non-available seat gets 409; an Update or Commit
failure gets 500 with the table untouched (rollback); and the call
returns 200 with the confirmation message exactly when the seat was
available and every step of the transaction succeeded, committing the
update. -/
theorem reserve_status_taxonomy (infra : Infra) (ct : String) (body : Option TicketRequest)
    (σ : Seats) :
    ((reserveHandler infra ct body σ).code = 200 ∨ (reserveHandler infra ct body σ).code = 400 ∨
     (reserveHandler infra ct body σ).code = 404 ∨ (reserveHandler infra ct body σ).code = 409 ∨
     (reserveHandler infra ct body σ).code = 415 ∨ (reserveHandler infra ct body σ).code = 500) ∧
    (strHasPref ct "application/json" = false →
      reserveHandler infra ct body σ = ⟨415, "Content-Type must be application/json", σ, false⟩) ∧
    (strHasPref ct "application/json" = true → body = none →
      reserveHandler infra ct body σ = ⟨400, "Invalid JSON", σ, false⟩) ∧
    (∀ req, strHasPref ct "application/json" = true → body = some req →
      (infra.beginErr = true ∨ infra.selectErr = true) →
      (reserveHandler infra ct body σ).code = 500 ∧
      (reserveHandler infra ct body σ).msg = "internal server error" ∧
      (reserveHandler infra ct body σ).seats = σ) ∧
    (∀ req, strHasPref ct "application/json" = true → body = some req →
      infra.beginErr = false → infra.selectErr = false → findSeat σ req.SeatID = none →
      reserveHandler infra ct body σ = ⟨404, "Seat not found", σ, true⟩) ∧
    (∀ req row, strHasPref ct "application/json" = true → body = some req →
      infra.beginErr = false → infra.selectErr = false →
      findSeat σ req.SeatID = some row → row.status ≠ "available" →
      reserveHandler infra ct body σ = ⟨409, "Seat already reserved", σ, true⟩) ∧
    (∀ req row, strHasPref ct "application/json" = true → body = some req →
      infra.beginErr = false → infra.selectErr = false →
      findSeat σ req.SeatID = some row → row.status = "available" →
      (infra.updateErr = true ∨ infra.commitErr = true) →
      (reserveHandler infra ct body σ).code = 500 ∧
      (reserveHandler infra ct body σ).msg = "internal server error" ∧
      (reserveHandler infra ct body σ).seats = σ) ∧
    (∀ req row, strHasPref ct "application/json" = true → body = some req →
      infra.beginErr = false → infra.selectErr = false →
      findSeat σ req.SeatID = some row → row.status = "available" →
      infra.updateErr = false → infra.commitErr = false →
      reserveHandler infra ct body σ =
        ⟨200, "Reservation successful", updateReserve σ req.SeatID req.UserID, true⟩) := by
  refine ⟨reserveHandler_code_mem infra ct body σ, ?_, ?_, ?_, ?_, ?_, ?_, ?_⟩
  · intro hct
    simp [reserveHandler, hct]
  · intro hct hbody
    subst hbody
    simp [reserveHandler, hct]
  · intro req hct hbody hinfra
    subst hbody
    rcases hinfra with hb | hsel
    · simp [reserveHandler, hct, hb]
    · by_cases hb : infra.beginErr = true <;> simp [reserveHandler, hct, hb, hsel]
  · intro req hct hbody hb hsel hfind
    subst hbody
    simp [reserveHandler, hct, hb, hsel, hfind]
  · intro req row hct hbody hb hsel hfind hna
    subst hbody
    simp [reserveHandler, hct, hb, hsel, hfind, hna]
  · intro req row hct hbody hb hsel hfind hav hinfra
    subst hbody
    rcases hinfra with hupd | hcom
    · simp [reserveHandler, hct, hb, hsel, hfind, hav, hupd]
    · by_cases hupd : infra.updateErr = true <;>
        simp [reserveHandler, hct, hb, hsel, hfind, hav, hupd, hcom]
  · intro req row hct hbody hb hsel hfind hav hupd hcom
    subst hbody
    simp [reserveHandler, hct, hb, hsel, hfind, hav, hupd, hcom]

/-- Witness for C3: a wrong Content-Type, a malformed body, and an
unknown seat id, each at a concrete input. -/
theorem reserve_status_taxonomy_witness :
    reserveHandler noInfra "text/plain" none [] =
      ⟨415, "Content-Type must be application/json", [], false⟩ ∧
    reserveHandler noInfra "application/json" none [] = ⟨400, "Invalid JSON", [], false⟩ ∧
    reserveHandler noInfra "application/json" (some ⟨1, 9⟩) (initSeats 2 []) =
      ⟨404, "Seat not found", initSeats 2 [], true⟩ :=
  ⟨(reserve_status_taxonomy noInfra "text/plain" none []).2.1 (by decide),
   (reserve_status_taxonomy noInfra "application/json" none []).2.2.1 (by decide) rfl,
   (reserve_status_taxonomy noInfra "application/json" (some ⟨1, 9⟩)
      (initSeats 2 [])).2.2.2.2.1 ⟨1, 9⟩ (by decide) rfl rfl rfl (by decide)⟩

/-- C7.  A request with a wrong Content-Type or a malformed JSON body is
rejected with 415 or 400 before any store access: db.Begin is never
invoked (so no transaction and no lock) and the seats table is returned
exactly as it was. -/
theorem validation_before_store (infra : Infra) (ct : String) (body : Option TicketRequest)
    (σ : Seats)
    (h : strHasPref ct "application/json" = false ∨ body = none) :
    (reserveHandler infra ct body σ).seats = σ ∧
    (reserveHandler infra ct body σ).beganTx = false ∧
    ((reserveHandler infra ct body σ).code = 415 ∨
      (reserveHandler infra ct body σ).code = 400) := by
  rcases h with hct | hbody
  · simp [reserveHandler, hct]
  · subst hbody
    by_cases hct : strHasPref ct "application/json" = true <;> simp [reserveHandler, hct]

/-- Witness for C7: a request with a wrong Content-Type against a
one-seat pool. -/
theorem validation_before_store_witness :
    (reserveHandler noInfra "text/plain" (some ⟨1, 1⟩) (initSeats 1 [])).seats =
      initSeats 1 [] ∧
    (reserveHandler noInfra "text/plain" (some ⟨1, 1⟩) (initSeats 1 [])).beganTx = false ∧
    ((reserveHandler noInfra "text/plain" (some ⟨1, 1⟩) (initSeats 1 [])).code = 415 ∨
      (reserveHandler noInfra "text/plain" (some ⟨1, 1⟩) (initSeats 1 [])).code = 400) :=
  validation_before_store noInfra "text/plain" (some ⟨1, 1⟩) (initSeats 1 [])
    (Or.inl (by decide))

/-- C6.  The available-seats listing returns exactly the ids of rows whose
status is the string "available", in ascending order, truncated to the
LIMIT of 100; on a fresh 10-seat pool it returns 1..10, and after seat 5
is reserved it returns the same list without 5. -/
theorem availableSeats_listing :
    (∀ σ : Seats, (availableSeatsHandler σ).Sorted (· ≤ ·)) ∧
    (∀ σ : Seats, (availableSeatsHandler σ).length = min 100 (availableIds σ).length) ∧
    (∀ (σ : Seats) (a : Int), (availableIds σ).length ≤ 100 →
      (a ∈ availableSeatsHandler σ ↔
        ∃ row, row ∈ σ ∧ row.status = "available" ∧ row.seat_id = a)) ∧
    availableSeatsHandler (initSeats 10 []) = [1, 2, 3, 4, 5, 6, 7, 8, 9, 10] ∧
    availableSeatsHandler
      (reserveHandler noInfra "application/json" (some ⟨77, 5⟩) (initSeats 10 [])).seats =
      [1, 2, 3, 4, 6, 7, 8, 9, 10] := by
  refine ⟨?_, ?_, ?_, by decide, by decide⟩
  · intro σ
    exact List.Pairwise.sublist (List.take_sublist 100 _)
      (List.sorted_insertionSort (· ≤ ·) (availableIds σ))
  · intro σ
    rw [availableSeatsHandler, List.length_take, List.length_insertionSort]
  · intro σ a hlen
    have htake : ((availableIds σ).insertionSort (· ≤ ·)).take 100 =
        (availableIds σ).insertionSort (· ≤ ·) :=
      List.take_of_length_le (by rw [List.length_insertionSort]; exact hlen)
    rw [availableSeatsHandler, htake, List.mem_insertionSort]
    simp [availableIds, List.mem_map, List.mem_filter, and_assoc]

/-- Witness for C6: membership in the listing of a fresh 3-seat pool. -/
theorem availableSeats_listing_witness :
    2 ∈ availableSeatsHandler (initSeats 3 []) ↔
      ∃ row, row ∈ initSeats 3 [] ∧ row.status = "available" ∧ row.seat_id = 2 :=
  availableSeats_listing.2.2.1 (initSeats 3 []) 2 (by decide)

lemma seatIds_updateReserve (σ : Seats) (s u : Int) :
    seatIds (updateReserve σ s u) = seatIds σ := by
  induction σ with
  | nil => rfl
  | cons head tail ih =>
    rw [updateReserve_cons]
    simp only [seatIds, List.map_cons] at ih ⊢
    by_cases hc : head.seat_id == s <;> simp [hc, markReserved, ih]

lemma seatIds_reserveHandler (infra : Infra) (ct : String) (body : Option TicketRequest)
    (σ : Seats) : seatIds (reserveHandler infra ct body σ).seats = seatIds σ := by
  rcases reserveHandler_seats_cases infra ct body σ with hs | ⟨req, row, _, _, _, hs⟩
  · rw [hs]
  · rw [hs, seatIds_updateReserve]

lemma seatIds_applyReserves (σ : Seats)
    (calls : List (Infra × String × Option TicketRequest)) :
    seatIds (applyReserves σ calls) = seatIds σ := by
  induction calls generalizing σ with
  | nil => rfl
  | cons c cs ih =>
    show seatIds (applyReserves (reserveHandler c.1 c.2.1 c.2.2 σ).seats cs) = seatIds σ
    rw [ih, seatIds_reserveHandler]

lemma any_eq_mem_seatIds (σ : Seats) (i : Int) :
    (σ.any (fun row => row.seat_id == i)) = true ↔ i ∈ seatIds σ := by
  simp [List.any_eq_true, seatIds, List.mem_map]

lemma insertIgnore_of_mem (σ : Seats) (i : Int) (h : i ∈ seatIds σ) :
    insertIgnore σ i = σ := by
  unfold insertIgnore
  rw [if_pos ((any_eq_mem_seatIds σ i).mpr h)]

lemma insertIgnore_of_not_mem (σ : Seats) (i : Int) (h : i ∉ seatIds σ) :
    insertIgnore σ i = σ ++ [⟨i, "available", none⟩] := by
  unfold insertIgnore
  rw [if_neg]
  intro hc
  exact h ((any_eq_mem_seatIds σ i).mp hc)

lemma initSeats_succ (n : Nat) (σ : Seats) :
    initSeats (n + 1) σ = insertIgnore (initSeats n σ) ((n : Int) + 1) := by
  unfold initSeats
  rw [List.range_succ, List.foldl_append]
  rfl

lemma seatIds_initSeats_nil (total : Nat) :
    seatIds (initSeats total []) = (List.range total).map (fun (k : Nat) => (k : Int) + 1) := by
  induction total with
  | zero => rfl
  | succ n ih =>
    have hnot : ((n : Int) + 1) ∉ seatIds (initSeats n []) := by
      rw [ih]
      intro hc
      rcases List.mem_map.mp hc with ⟨k, hk, hkeq⟩
      have hklt : k < n := List.mem_range.mp hk
      omega
    rw [initSeats_succ, insertIgnore_of_not_mem _ _ hnot, List.range_succ,
      List.map_append, ← ih]
    simp [seatIds]

lemma initSeats_id_of_mem (total : Nat) (σ : Seats)
    (h : ∀ k, k < total → ((k : Int) + 1) ∈ seatIds σ) : initSeats total σ = σ := by
  induction total with
  | zero => rfl
  | succ n ih =>
    rw [initSeats_succ, ih (fun k hk => h k (Nat.lt_succ_of_lt hk)),
      insertIgnore_of_mem σ _ (h n (Nat.lt_succ_self n))]

/-- C9.  Idempotence of seat initialization: over any table produced by
initSeats(total) on an empty table followed by arbitrary reserve calls
(so possibly with reserved rows), re-running initSeats(total) is the
identity (no row duplicated, no status or owner reset), and the primary
keys of the table are exactly 1..total, in order. -/
theorem initSeats_idempotent (total : Nat)
    (calls : List (Infra × String × Option TicketRequest)) :
    initSeats total (applyReserves (initSeats total []) calls) =
      applyReserves (initSeats total []) calls ∧
    seatIds (applyReserves (initSeats total []) calls) =
      (List.range total).map (fun (k : Nat) => (k : Int) + 1) := by
  have hids : seatIds (applyReserves (initSeats total []) calls) =
      (List.range total).map (fun (k : Nat) => (k : Int) + 1) := by
    rw [seatIds_applyReserves, seatIds_initSeats_nil]
  refine ⟨?_, hids⟩
  apply initSeats_id_of_mem
  intro k hk
  rw [hids]
  exact List.mem_map.mpr ⟨k, List.mem_range.mpr hk, rfl⟩

lemma classTotalRTT_cons (p : Result → Bool) (r : Result) (l : List Result) :
    classTotalRTT p (r :: l) = (if p r then r.Duration else 0) + classTotalRTT p l := by
  unfold classTotalRTT
  rw [List.filter_cons]
  split
  · rename_i h; simp [h]
  · rename_i h; simp [h]

lemma foldl_aggStep (l : List Result) (a : Agg) :
    l.foldl aggStep a =
      ⟨a.successCount + l.countP classSuccess,
       a.successTotalRTT + classTotalRTT classSuccess l,
       a.failCount + l.countP classRejected,
       a.failTotalRTT + classTotalRTT classRejected l,
       a.requestFailCount + l.countP classRequestFailure⟩ := by
  induction l generalizing a with
  | nil => simp [classTotalRTT]
  | cons r rest ih =>
    rw [List.foldl_cons, ih]
    by_cases h0 : (r.Duration == 0) = true
    · simp [aggStep, classRequestFailure, classSuccess, classRejected, h0,
        List.countP_cons, classTotalRTT_cons, Agg.mk.injEq]
      omega
    · by_cases h200 : (r.StatusCode == 200) = true
      · simp [aggStep, classRequestFailure, classSuccess, classRejected, h0, h200,
          List.countP_cons, classTotalRTT_cons, Agg.mk.injEq]
        omega
      · simp [aggStep, classRequestFailure, classSuccess, classRejected, h0, h200,
          List.countP_cons, classTotalRTT_cons, Agg.mk.injEq]
        omega

/-- C4.  What the aggregation loop of the harness main actually computes:
it classifies every result into exactly one of the three classes
(RequestFailure when the latency sentinel Duration is 0,
ReservationSuccess when a response arrived with status 200,
ReservationRejected when a response arrived with any other status) and
produces the per-class counts and latency totals over the joined runs —
and nothing more: the Agg record is its entire output, and on the
concrete run holding one success of 7 time units that output is the
counts-and-totals record alone.  The per-class count>0-guarded average
the specification asks for exists in the source only inside a
commented-out block and is never computed by the running program. -/
theorem aggregator_counts_without_average :
    (∀ r : Result,
      (classRequestFailure r = true ∧ classSuccess r = false ∧ classRejected r = false) ∨
      (classRequestFailure r = false ∧ classSuccess r = true ∧ classRejected r = false) ∨
      (classRequestFailure r = false ∧ classSuccess r = false ∧ classRejected r = true)) ∧
    (∀ runs : List (List Result),
      aggregate runs =
        ⟨runs.flatten.countP classSuccess, classTotalRTT classSuccess runs.flatten,
         runs.flatten.countP classRejected, classTotalRTT classRejected runs.flatten,
         runs.flatten.countP classRequestFailure⟩) ∧
    aggregate [[⟨200, 7, none⟩]] = ⟨1, 7, 0, 0, 0⟩ := by
  refine ⟨?_, ?_, by decide⟩
  · intro r
    by_cases h0 : (r.Duration == 0) = true
    · exact Or.inl (by simp [classRequestFailure, classSuccess, classRejected, h0])
    · by_cases h200 : (r.StatusCode == 200) = true
      · exact Or.inr (Or.inl
          (by simp [classRequestFailure, classSuccess, classRejected, h0, h200]))
      · exact Or.inr (Or.inr
          (by simp [classRequestFailure, classSuccess, classRejected, h0, h200]))
  · intro runs
    rw [aggregate, foldl_aggStep]
    simp

lemma simulateClient_length_pos (userID : Int) (script : List Round) :
    1 ≤ (simulateClient userID script).length := by
  simp only [simulateClient]
  split
  · simp
  · rename_i h
    simp only [beq_iff_eq] at h
    omega

/-- C8.  Every simulator contributes at least one result: the output of
simulateClient is never empty (a run with zero recorded attempts sends
the one synthetic failure record), so in any population of simulators
every collected run has length at least 1. -/
theorem every_simulator_contributes :
    (∀ (userID : Int) (script : List Round), 1 ≤ (simulateClient userID script).length) ∧
    (∀ (clients : List (Int × List Round)) (run : List Result),
      run ∈ clients.map (fun p => simulateClient p.1 p.2) → 1 ≤ run.length) := by
  refine ⟨fun uid s => simulateClient_length_pos uid s, ?_⟩
  intro clients run hmem
  rcases List.mem_map.mp hmem with ⟨p, _, rfl⟩
  exact simulateClient_length_pos p.1 p.2

/-- Witness for C8: a simulator that sees an exhausted pool at once still
contributes one (synthetic) result. -/
theorem every_simulator_contributes_witness :
    1 ≤ (simulateClient 1000 [Round.fetch [] []]).length :=
  every_simulator_contributes.2 [(1000, [Round.fetch [] []])]
    (simulateClient 1000 [Round.fetch [] []]) (by decide)

/-- Counterexample for C5: in the run cex5, one issued attempt is a pure
transport failure, but the simulator records only the later success, so
the aggregate of the run counts zero request failures and contains a
single record in total — the transport-failed attempt appears nowhere in
the output, contradicting that it is counted separately in the aggregate
report. -/
theorem transport_failure_dropped_counterexample :
    (issuedAttempts cex5).countP droppedAttempt = 1 ∧
    simulateClient 1000 cex5 = [⟨200, 7, none⟩] ∧
    aggregate [simulateClient 1000 cex5] = ⟨1, 7, 0, 0, 0⟩ := by decide

lemma recordAttempts_not_dropped (l : List Result) :
    ∀ r ∈ recordAttempts l, droppedAttempt r = false := by
  induction l with
  | nil => intro r hr; cases hr
  | cons x xs ih =>
    intro r hr
    unfold recordAttempts at hr
    by_cases hd : droppedAttempt x = true
    · rw [if_pos hd] at hr
      exact ih r hr
    · rw [if_neg hd] at hr
      by_cases h2 : (x.StatusCode == 200) = true
      · rw [if_pos h2] at hr
        simp at hr
        subst hr
        simpa using hd
      · rw [if_neg h2] at hr
        rcases List.mem_cons.mp hr with rfl | hr
        · simpa using hd
        · exact ih r hr

lemma clientLoop_not_dropped (script : List Round) :
    ∀ r ∈ clientLoop script, droppedAttempt r = false := by
  induction script with
  | nil => intro r hr; cases hr
  | cons rd rest ih =>
    cases rd with
    | fetchFail =>
      intro r hr
      simp only [clientLoop] at hr
      exact ih r hr
    | fetch seats outs =>
      cases seats with
      | nil => intro r hr; cases hr
      | cons s ss =>
        intro r hr
        simp only [clientLoop] at hr
        rcases List.mem_append.mp hr with h | h
        · exact recordAttempts_not_dropped _ r h
        · exact ih r h

/-- C5 amended.  A pure transport failure is excluded from the recorded
results entirely (no recorded result is a dropped attempt, so none of
the aggregate statistics ever counts one); transport failures reach the
aggregate only through the single synthetic record a simulator emits
when its whole run recorded nothing, which the aggregator counts as
exactly one RequestFailure. -/
theorem transport_failure_amended :
    (∀ (script : List Round) (r : Result),
      r ∈ clientLoop script → droppedAttempt r = false) ∧
    (∀ (userID : Int) (script : List Round), clientLoop script = [] →
      aggregate [simulateClient userID script] = ⟨0, 0, 0, 0, 1⟩) := by
  refine ⟨fun script r hr => clientLoop_not_dropped script r hr, ?_⟩
  intro userID script h
  simp [simulateClient, h, aggregate, aggStep]

/-- Witness for C5 (amended): the recorded success of cex5 is not a
dropped attempt, and a client whose loop records nothing yields exactly
one aggregated request failure. -/
theorem transport_failure_amended_witness :
    droppedAttempt ⟨200, 7, none⟩ = false ∧
    aggregate [simulateClient 1 [Round.fetch [] []]] = ⟨0, 0, 0, 0, 1⟩ :=
  ⟨transport_failure_amended.1 cex5 ⟨200, 7, none⟩ (by decide),
   transport_failure_amended.2 1 [Round.fetch [] []] rfl⟩

/-- C10.  The reserveHandler of ticketing-be/main.go and the logging
variant in the unnamed source file are behaviorally equivalent: for
every header, body, table and injected failure they produce the same
status code, message, table and transaction behavior, differing only in
the log records. -/
theorem logged_handler_equivalent (infra : Infra) (ct : String)
    (body : Option TicketRequest) (σ : Seats) :
    (reserveHandlerLogged infra ct body σ).1 = reserveHandler infra ct body σ := by
  rcases body with _ | req
  · by_cases hct : strHasPref ct "application/json" = true <;>
      simp [reserveHandler, reserveHandlerLogged, hct]
  · by_cases hct : strHasPref ct "application/json" = true
    · by_cases hb : infra.beginErr = true
      · simp [reserveHandler, reserveHandlerLogged, hct, hb]
      · by_cases hsel : infra.selectErr = true
        · simp [reserveHandler, reserveHandlerLogged, hct, hb, hsel]
        · cases hfind : findSeat σ req.SeatID with
          | none => simp [reserveHandler, reserveHandlerLogged, hct, hb, hsel, hfind]
          | some row =>
            by_cases hav : row.status = "available"
            · by_cases hupd : infra.updateErr = true
              · simp [reserveHandler, reserveHandlerLogged, hct, hb, hsel, hfind, hav, hupd]
              · by_cases hcom : infra.commitErr = true <;>
                  simp [reserveHandler, reserveHandlerLogged, hct, hb, hsel, hfind, hav,
                    hupd, hcom]
            · simp [reserveHandler, reserveHandlerLogged, hct, hb, hsel, hfind, hav]
    · simp [reserveHandler, reserveHandlerLogged, hct]

end Ticketing
